import Mathlib

/-!
Shallow embedding of the authorization and session engine of the
gym-operations portal: the server-side authentication middleware
(token extraction, identity resolution, policy guards, rate-limit
policy) and the client-side request pipeline (401 refresh-and-retry,
logout), together with theorems settling the frozen claims about it.
-/

namespace Gym

/-- JavaScript truthiness of an optional string value: `undefined`/`null`
and the empty string are falsy, any other string is truthy. -/
def jsTruthy : Option String → Bool
  | none => false
  | some s => s ≠ ""

/-- JavaScript `a || b` on optional string values: yields `a` when `a`
is truthy, else `b`. -/
def jsOr (a b : Option String) : Option String :=
  if jsTruthy a then a else b

/-- A row of the `team_members` table (the fields the middleware selects). -/
structure TeamRow where
  id : String
  user_id : String
  role : String
  gym_location_id : String
  first_name : String
  last_name : String
  email : String
  is_active : Bool
  permissions : Option (List (String × Bool))
deriving DecidableEq, Repr

/-- A row of the `members` table (the fields the middleware selects).
`membership_end_date` is an optional date, modelled as an integer timestamp. -/
structure MemberRow where
  id : String
  user_id : String
  member_number : String
  gym_location_id : String
  first_name : String
  last_name : String
  email : String
  membership_status : String
  membership_end_date : Option Int
deriving DecidableEq, Repr

/-- The profile store: the two profile tables keyed by subject (user) id. -/
structure Db where
  teamMembers : List TeamRow
  members : List MemberRow
deriving DecidableEq, Repr

/-- The normalized profile attached to `req.user` by the middleware.
Fields present only on one variant are `Option`s (absent on a JS object). -/
structure Profile where
  id : String
  userId : String
  role : String
  type : String
  gymLocationId : String
  name : String
  email : String
  permissions : Option (List (String × Bool))
  membershipStatus : Option String
  membershipEndDate : Option Int
  isActive : Bool
deriving DecidableEq, Repr

/-- The staff-type lookup: `.from('team_members').eq('user_id', userId)
.eq('is_active', true).single()`. -/
def findTeamMember (db : Db) (userId : String) : Option TeamRow :=
  db.teamMembers.find? (fun r => r.user_id = userId ∧ r.is_active = true)

/-- The member-type lookup: `.from('members').eq('user_id', userId).single()`. -/
def findMember (db : Db) (userId : String) : Option MemberRow :=
  db.members.find? (fun r => r.user_id = userId)

/-- Build the `team_member` profile object returned by `getUserProfile`. -/
def teamMemberProfile (userId : String) (t : TeamRow) : Profile :=
  { id := t.id
    userId := userId
    role := t.role
    type := "team_member"
    gymLocationId := t.gym_location_id
    name := t.first_name ++ " " ++ t.last_name
    email := t.email
    permissions := some (t.permissions.getD [])
    membershipStatus := none
    membershipEndDate := none
    isActive := t.is_active }

/-- Build the `member` profile object returned by `getUserProfile`;
`isActive` is `membership_status ∈ \x7bactive, pending\x7d`. -/
def memberProfile (userId : String) (m : MemberRow) : Profile :=
  { id := m.id
    userId := userId
    role := "member"
    type := "member"
    gymLocationId := m.gym_location_id
    name := m.first_name ++ " " ++ m.last_name
    email := m.email
    permissions := none
    membershipStatus := some m.membership_status
    membershipEndDate := m.membership_end_date
    isActive := decide (m.membership_status = "active" ∨ m.membership_status = "pending") }

/-- `getUserProfile(userId)`: first the staff-type lookup (filtered on
`is_active = true`); if it yields a row, return the `team_member`
profile without consulting the member table; else the member-type
lookup; if it yields a row, return the `member` profile; else fail
with "User profile not found". -/
def getUserProfile (db : Db) (userId : String) : Except String Profile :=
  match findTeamMember db userId with
  | some t => .ok (teamMemberProfile userId t)
  | none =>
    match findMember db userId with
    | some m => .ok (memberProfile userId m)
    | none => .error "User profile not found"

/-- The carriers of an inbound request that `extractToken` inspects. -/
structure Request where
  authorization : Option String
  cookieJwt : Option String
  xAccessToken : Option String
deriving DecidableEq, Repr

/-- JavaScript `s.startsWith(p)`, computed on the character lists. -/
def jsStartsWith (s p : String) : Bool :=
  p.data.isPrefixOf s.data

/-- JavaScript `s.split(c)` for a one-character separator: the list of
(possibly empty) segments of `s` between occurrences of `c`. -/
def jsSplit (c : Char) : List Char → List String
  | [] => [""]
  | ch :: rest =>
    match jsSplit c rest with
    | [] => [""]
    | h :: t =>
      if ch = c then "" :: h :: t
      else String.mk (ch :: h.data) :: t

/-- `extractToken(req)`: the `Authorization` header when present and
`Bearer `-prefixed (taking the second space-separated piece), else the
`jwt` cookie when truthy, else the `x-access-token` header. -/
def extractToken (req : Request) : Option String :=
  if (match req.authorization with
      | some a => jsStartsWith a "Bearer "
      | none => false) then
    some ((jsSplit ' ' (req.authorization.getD "").data).getD 1 "")
  else if jsTruthy req.cookieJwt then
    req.cookieJwt
  else if jsTruthy req.xAccessToken then
    req.xAccessToken
  else
    none

/-- The network side effects `protect` can perform, in order. -/
inductive Effect where
  | verifierCall (token : String)
  | profileLookup (userId : String)
deriving DecidableEq, Repr

/-- `protect`: extract the token (throwing "Access denied. No token
provided." when it is falsy), verify it with the credential verifier
(`verify` returns the subject id, or `none`, which `verifyToken` turns
into the "Invalid or expired token" `AuthenticationError`), resolve
the profile, throw "Your account has been deactivated..." when the
profile is inactive, else attach the profile.  Returns the outcome
paired with the trace of verifier and profile-store calls performed. -/
def protect (req : Request) (verify : String → Option String)
    (db : Db) : Except String Profile × List Effect :=
  let token := extractToken req
  if jsTruthy token then
    let t := token.getD ""
    match verify t with
    | none => (.error "Invalid or expired token", [.verifierCall t])
    | some userId =>
      match getUserProfile db userId with
      | .error e => (.error e, [.verifierCall t, .profileLookup userId])
      | .ok p =>
        if p.isActive then (.ok p, [.verifierCall t, .profileLookup userId])
        else (.error "Your account has been deactivated. Please contact support.",
              [.verifierCall t, .profileLookup userId])
  else
    (.error "Access denied. No token provided.", [])

/-- The allow/deny outcome of one guard middleware: call `next`, or
throw an `AuthenticationError` (401) or `AuthorizationError` (403). -/
inductive GuardResult where
  | next
  | authnError (msg : String)
  | authzError (msg : String)
deriving DecidableEq, Repr

/-- `restrictTo(...roles)`: deny with 401 when no user is attached,
with 403 when the user's role is not among `roles`, else pass. -/
def restrictTo (roles : List String) (user : Option Profile) : GuardResult :=
  match user with
  | none => .authnError "Authentication required"
  | some u =>
    if roles.contains u.role then .next
    else .authzError "Access denied. Required role"

/-- `requirePermission(...permissions)`: 401 when no user; admins always
pass; otherwise pass iff some requested permission maps to `true` in
the user's permission object (`req.user.permissions || \x7b\x7d`). -/
def requirePermission (permissions : List String) (user : Option Profile) :
    GuardResult :=
  match user with
  | none => .authnError "Authentication required"
  | some u =>
    if u.role = "admin" then .next
    else
      let userPermissions := u.permissions.getD []
      if permissions.any (fun p => userPermissions.lookup p = some true) then .next
      else .authzError "Insufficient permissions"

/-- `restrictToGymLocation`: 401 when no user; admins always pass; the
requested location id is `req.params.gymLocationId ||
req.query.gymLocationId || req.body.gymLocationId`; staff and members
are denied when that id is truthy and differs from their
`gymLocationId`; everyone else passes. -/
def restrictToGymLocation (user : Option Profile)
    (paramsLoc queryLoc bodyLoc : Option String) : GuardResult :=
  match user with
  | none => .authnError "Authentication required"
  | some u =>
    if u.role = "admin" then .next
    else
      let requestedLocationId := jsOr (jsOr paramsLoc queryLoc) bodyLoc
      if u.role = "staff" ∧ jsTruthy requestedLocationId ∧
          requestedLocationId ≠ some u.gymLocationId then
        .authzError "Access denied to this gym location"
      else if u.role = "member" ∧ jsTruthy requestedLocationId ∧
          requestedLocationId ≠ some u.gymLocationId then
        .authzError "Access denied to this gym location"
      else .next

/-- `requireActiveMembership`: 401 when no user; applies only to users
with role `member`: deny when `membershipStatus !== 'active'`, then
deny when a truthy `membershipEndDate` lies strictly before `now`;
staff and admin pass through. -/
def requireActiveMembership (now : Int) (user : Option Profile) : GuardResult :=
  match user with
  | none => .authnError "Authentication required"
  | some u =>
    if u.role = "member" then
      if u.membershipStatus ≠ some "active" then
        .authzError "Active membership required. Please renew your membership."
      else
        match u.membershipEndDate with
        | some d =>
          if d < now then
            .authzError "Your membership has expired. Please renew to continue."
          else .next
        | none => .next
    else .next

/-- Express middleware chaining: run the second guard only when the
first calls `next`; the first denial short-circuits. -/
def chain (g1 g2 : Option Profile → GuardResult) (user : Option Profile) :
    GuardResult :=
  match g1 user with
  | .next => g2 user
  | r => r

/-- The default per-window request budgets of `roleBasedRateLimit`. -/
def defaultLimits : List (String × Nat) :=
  [("admin", 1000), ("staff", 500), ("member", 100), ("anonymous", 50)]

/-- `roleBasedRateLimit(limits)`: the budget assigned to a request is
looked up under the attached user's role, or under `"anonymous"` when
no user is attached, in `\x7b...defaultLimits, ...limits\x7d`; the window
is fixed at 15 minutes (in milliseconds). -/
def roleBasedRateLimit (limits : List (String × Nat)) (user : Option Profile) :
    Option Nat × Nat :=
  let roleLimits := fun role =>
    match limits.lookup role with
    | some v => some v
    | none => defaultLimits.lookup role
  let userRole := match user with
    | some u => u.role
    | none => "anonymous"
  (roleLimits userRole, 15 * 60 * 1000)

/-- Configuration of an `express-rate-limit` limiter as set up in the
server entry point; `keyedByIp` records that the limiter uses the
library's default key generator, the caller's IP address. -/
structure RateLimitConfig where
  windowMs : Nat
  max : Nat
  keyedByIp : Bool
deriving DecidableEq, Repr

/-- The general limiter on `/api/`: 15-minute window, 100 requests
(the defaults, used when the corresponding environment variables are
unset), keyed by caller IP. -/
def limiter : RateLimitConfig :=
  { windowMs := 15 * 60 * 1000, max := 100, keyedByIp := true }

/-- The strict limiter configured for authentication attempts:
15-minute window, 10 attempts, keyed by caller IP regardless of any
identity.  It is mounted at the literal paths `/api/auth/login` and
`/api/auth/register`, while the auth router itself is mounted at
`API_PREFIX + '/auth'` = `/api/v1/auth` — see `limitersFor`. -/
def strictLimiter : RateLimitConfig :=
  { windowMs := 15 * 60 * 1000, max := 10, keyedByIp := true }

/-- Express `app.use(mount, mw)` path matching: the request path
equals the mount path or continues it at a `/` boundary.
(`app.use('/api/', ...)`'s trailing slash is normalized away by
Express, so the general limiter's mount is modelled as "/api".) -/
def mountMatches (mount path : String) : Bool :=
  path = mount ∨ jsStartsWith path (mount ++ "/")

/-- `process.env.API_VERSION || 'v1'`: "v1" both by default and in the
repository's environment file. -/
def API_VERSION : String := "v1"

/-- The prefix "/api/" + API_VERSION under which every API router is
mounted. -/
def API_PREFIX : String := "/api/" ++ API_VERSION

/-- Mount path of the auth router: `app.use(API_PREFIX + '/auth',
authRoutes)`. -/
def authMountPath : String := API_PREFIX ++ "/auth"

/-- The live login endpoint served by the auth router. -/
def loginPath : String := authMountPath ++ "/login"

/-- The live registration endpoint served by the auth router. -/
def registerPath : String := authMountPath ++ "/register"

/-- The rate limiters mounted on the path of a request, in mount
order: `app.use('/api/', limiter)`, then
`app.use('/api/auth/login', strictLimiter)` and
`app.use('/api/auth/register', strictLimiter)`.  (The general
limiter's health-check skip affects only `/api/health` and is not
modelled.) -/
def limitersFor (path : String) : List RateLimitConfig :=
  (if mountMatches "/api" path then [limiter] else []) ++
    (if mountMatches "/api/auth/login" path then [strictLimiter] else []) ++
    (if mountMatches "/api/auth/register" path then [strictLimiter] else [])

/-- The rate limiters that charge a request, as a function of its path
and of the identity the request later resolves to: rate limiting runs
at mount time, before any identity is attached, and never consults
`req.user` (`roleBasedRateLimit` is exported but mounted on no route),
so the charged limiters depend only on the path. -/
def chargedLimiters (path : String) (_user : Option Profile) :
    List RateLimitConfig :=
  limitersFor path

/-- Client-side session store: the `jwt`/access and refresh token
cookies. -/
structure ClientState where
  accessToken : Option String
  refreshToken : Option String
deriving DecidableEq, Repr

/-- Outcome of running one client call through the response
interceptor: the settled promise (`.ok status` resolved, `.error ()`
rejected), how many upstream refresh calls were made, the resulting
cookie state, and whether the app was redirected to the login page. -/
structure RunOutcome where
  result : Except Unit Nat
  refreshCalls : Nat
  state : ClientState
  loggedOut : Bool
deriving Repr

/-- One client call through `apiClient`'s response interceptor.
`srv` gives the HTTP status of the underlying request as a function of
its `_retry` flag (statuses below 400 resolve; others enter the error
interceptor).  On a 401 with `_retry` unset, the flag is set and, when
a refresh-token cookie is present, one `/auth/refresh-token` call is
made (`refreshResult`): on success the new access token is stored and
the original request is re-issued through the interceptor with
`_retry` set; on failure both token cookies are removed and the app
navigates to the login page.  Any other error, and a 401 with `_retry`
already set, rejects without refreshing.  This is the 401 branch,
factored out: `retried` re-issues the original request through the
interceptor. -/
def handle401 (retried : ClientState → RunOutcome)
    (refreshResult : Except Unit String) (st : ClientState) : RunOutcome :=
  if jsTruthy st.refreshToken then
    match refreshResult with
    | .ok newTok =>
      let out := retried { st with accessToken := some newTok }
      { out with refreshCalls := out.refreshCalls + 1 }
    | .error _ =>
      ⟨.error (), 1, { accessToken := none, refreshToken := none }, true⟩
  else ⟨.error (), 0, st, false⟩

/-- One client call through `apiClient`'s response interceptor:
statuses below 400 resolve; a 401 with `_retry` unset enters
`handle401` with the request re-issued at smaller fuel and `_retry`
set; every other error (including a 401 with `_retry` already set)
rejects without refreshing.  `fuel` bounds the recursion (the code
recurses at most once). -/
def runCall (srv : Bool → Nat) (refreshResult : Except Unit String) :
    Nat → ClientState → Bool → RunOutcome
  | 0, st, _ => ⟨.error (), 0, st, false⟩
  | fuel + 1, st, retryFlag =>
    if srv retryFlag < 400 then ⟨.ok (srv retryFlag), 0, st, false⟩
    else if srv retryFlag = 401 ∧ retryFlag = false then
      handle401 (fun st2 => runCall srv refreshResult fuel st2 true)
        refreshResult st
    else ⟨.error (), 0, st, false⟩

/-- Two client calls whose 401 responses arrive before either refresh
settles: each interceptor invocation runs on its own request config
(its own `_retry` flag) and reads the same pre-refresh cookie state;
the interceptor keeps no shared in-flight refresh handle, so the two
executions are independent.  The value is the total number of upstream
refresh calls made. -/
def concurrentRefreshCalls (srv1 srv2 : Bool → Nat)
    (refreshResult : Except Unit String) (st : ClientState) : Nat :=
  (runCall srv1 refreshResult 2 st false).refreshCalls +
    (runCall srv2 refreshResult 2 st false).refreshCalls

/-- The server logout handler's HTTP response body. -/
structure LogoutResponse where
  status : String
  message : String
deriving DecidableEq, Repr

/-- Server `logout`: calls `supabase.auth.signOut()` (`signOutResult`
is `.ok err?` for a return with an optional error object, `.error e`
for a thrown exception); a returned error is only logged, and the
catch branch also responds with success, so a success body is sent in
every case. -/
def serverLogout (signOutResult : Except String (Option String)) :
    LogoutResponse :=
  match signOutResult with
  | .ok _errObj => { status := "success", message := "Logout successful" }
  | .error _e => { status := "success", message := "Logout successful" }

/-- Client `FitZoneAPI.logout`: try the `/auth/logout` call
(`apiResult`), ignore any error, and in the `finally` block remove
both token cookies. -/
def clientLogout (apiResult : Except Unit Unit) (st : ClientState) :
    ClientState :=
  match apiResult with
  | .ok _ => { st with accessToken := none, refreshToken := none }
  | .error _ => { st with accessToken := none, refreshToken := none }

/-- Fixture: an active staff row for subject id "u1". -/
def staffRow1 : TeamRow :=
  { id := "t1", user_id := "u1", role := "staff", gym_location_id := "loc1"
    first_name := "Ann", last_name := "Lee", email := "ann@example.com"
    is_active := true, permissions := some [("members.view", true)] }

/-- Fixture: a member row for subject id "u1". -/
def memberRow1 : MemberRow :=
  { id := "m1", user_id := "u1", member_number := "M001"
    gym_location_id := "loc1", first_name := "Ann", last_name := "Lee"
    email := "ann@example.com", membership_status := "active"
    membership_end_date := none }

/-- Fixture: a profile store in which both the staff-type and the
member-type lookup succeed for subject id "u1". -/
def bothDb : Db := { teamMembers := [staffRow1], members := [memberRow1] }

/-- Fixture: a deactivated staff row for subject id "u2". -/
def staffRow2 : TeamRow :=
  { id := "t2", user_id := "u2", role := "staff", gym_location_id := "loc1"
    first_name := "Bob", last_name := "Kim", email := "bob@example.com"
    is_active := false, permissions := some [] }

/-- Fixture: a member row for subject id "u2". -/
def memberRow2 : MemberRow :=
  { id := "m2", user_id := "u2", member_number := "M002"
    gym_location_id := "loc2", first_name := "Bob", last_name := "Kim"
    email := "bob@example.com", membership_status := "expired"
    membership_end_date := some 100 }

/-- Fixture: a store whose only staff row for "u2" is deactivated and
which has no member row for "u2". -/
def deactivatedOnlyDb : Db := { teamMembers := [staffRow2], members := [] }

/-- Fixture: a store whose only staff row for "u2" is deactivated but
which also has a member row for "u2". -/
def deactivatedWithMemberDb : Db :=
  { teamMembers := [staffRow2], members := [memberRow2] }

/-- Fixture: a staff profile at home location "loc1". -/
def staffProfile1 : Profile := teamMemberProfile "u1" staffRow1

/-- Fixture: an admin profile. -/
def adminProfile1 : Profile := { staffProfile1 with role := "admin" }

/-- Fixture: a member profile with an expired membership. -/
def memberProfile2 : Profile := memberProfile "u2" memberRow2

/-- Helper: the staff-type lookup only returns rows marked active. -/
theorem findTeamMember_is_active {db : Db} {uid : String} {t : TeamRow}
    (h : findTeamMember db uid = some t) : t.is_active = true := by
  have hp := List.find?_some h
  simp only [decide_eq_true_eq] at hp
  exact hp.2

/-- Helper: a store in which every staff row for `uid` is deactivated
yields no staff-type lookup result. -/
theorem findTeamMember_none_of_inactive {db : Db} {uid : String}
    (h : ∀ r ∈ db.teamMembers, r.user_id = uid → r.is_active = false) :
    findTeamMember db uid = none := by
  rw [findTeamMember, List.find?_eq_none]
  intro r hr
  simp only [decide_eq_true_eq, not_and]
  intro huid
  simp [h r hr huid]

/-- Helper: the interceptor never refreshes on a request whose
`_retry` flag is already set. -/
theorem runCall_retryFlag_no_refresh (fuel : Nat) (srv : Bool → Nat)
    (r : Except Unit String) (st : ClientState) :
    (runCall srv r fuel st true).refreshCalls = 0 := by
  cases fuel with
  | zero => rfl
  | succ n =>
    rw [runCall]
    split
    · rfl
    · split
      · simp_all
      · rfl

/-- Claim C1: the location-scope guard admits an admin identity for
every requested location; a staff or member identity passes iff the
requested location id — path parameter, else query parameter, else
body, in that precedence — is absent (falsy) or equals the identity's
home location id, and is denied otherwise; in particular a staff
identity with home location `L` requesting any distinct location `Lp`
is denied. -/
theorem restrictToGymLocation_scope :
    (∀ (u : Profile) (pl ql bl : Option String), u.role = "admin" →
      restrictToGymLocation (some u) pl ql bl = .next) ∧
    (∀ (u : Profile) (pl ql bl : Option String),
      u.role = "staff" ∨ u.role = "member" →
      (restrictToGymLocation (some u) pl ql bl = .next ↔
        (jsTruthy (jsOr (jsOr pl ql) bl) = false ∨
          jsOr (jsOr pl ql) bl = some u.gymLocationId))) ∧
    (∀ (u : Profile) (pl ql bl : Option String),
      u.role = "staff" ∨ u.role = "member" →
      jsTruthy (jsOr (jsOr pl ql) bl) = true →
      jsOr (jsOr pl ql) bl ≠ some u.gymLocationId →
      restrictToGymLocation (some u) pl ql bl =
        .authzError "Access denied to this gym location") ∧
    (∀ (u : Profile) (L Lp : String) (ql bl : Option String),
      u.role = "staff" → u.gymLocationId = L → Lp ≠ "" → Lp ≠ L →
      restrictToGymLocation (some u) (some Lp) ql bl =
        .authzError "Access denied to this gym location") := by
  refine ⟨?_, ?_, ?_, ?_⟩
  · intro u pl ql bl h
    simp [restrictToGymLocation, h]
  · intro u pl ql bl hrole
    rcases hrole with h | h <;>
      simp only [restrictToGymLocation, h] <;>
      by_cases ht : jsTruthy (jsOr (jsOr pl ql) bl) = true <;>
      by_cases he : jsOr (jsOr pl ql) bl = some u.gymLocationId <;>
      simp [ht, he]
  · intro u pl ql bl hrole ht he
    rcases hrole with h | h <;> simp [restrictToGymLocation, h, ht, he]
  · intro u L Lp ql bl hrole hhome hne hdist
    have ht : jsTruthy (jsOr (jsOr (some Lp) ql) bl) = true := by
      simp [jsOr, jsTruthy, hne]
    have he : jsOr (jsOr (some Lp) ql) bl ≠ some u.gymLocationId := by
      simp only [jsOr, jsTruthy]
      simp [hne, hhome, hdist]
    simp [restrictToGymLocation, hrole, ht, he]

/-- Witness for C1: a staff identity at home location "loc1"
requesting location "loc2" through the path parameter is denied;
the admin and pass-iff conjuncts instantiated at the same inputs. -/
theorem restrictToGymLocation_scope_witness :
    restrictToGymLocation (some staffProfile1) (some "loc2") none none =
      .authzError "Access denied to this gym location" ∧
    restrictToGymLocation (some { staffProfile1 with role := "admin" })
      (some "loc2") none none = .next ∧
    (restrictToGymLocation (some staffProfile1) (some "loc1") none none = .next ↔
      (jsTruthy (jsOr (jsOr (some "loc1") none) none) = false ∨
        jsOr (jsOr (some "loc1") none) none = some staffProfile1.gymLocationId)) := by
  refine ⟨?_, ?_, ?_⟩
  · exact restrictToGymLocation_scope.2.2.2 staffProfile1 "loc1" "loc2" none none
      rfl rfl (by decide) (by decide)
  · exact restrictToGymLocation_scope.1 _ (some "loc2") none none rfl
  · exact restrictToGymLocation_scope.2.1 staffProfile1 (some "loc1") none none
      (Or.inl rfl)

/-- Claim C2: the permission guard admits an admin identity for every
requested capability set; a staff identity passes iff some requested
permission is mapped to `true` in its permission map; a member
identity (a profile built by the member branch of identity resolution)
never passes. -/
theorem requirePermission_policy :
    (∀ (perms : List String) (u : Profile), u.role = "admin" →
      requirePermission perms (some u) = .next) ∧
    (∀ (perms : List String) (u : Profile), u.role = "staff" →
      (requirePermission perms (some u) = .next ↔
        ∃ p ∈ perms, (u.permissions.getD []).lookup p = some true)) ∧
    (∀ (db : Db) (uid : String) (p : Profile) (perms : List String),
      getUserProfile db uid = .ok p → p.type = "member" →
      requirePermission perms (some p) =
        .authzError "Insufficient permissions") := by
  refine ⟨?_, ?_, ?_⟩
  · intro perms u h
    simp [requirePermission, h]
  · intro perms u h
    by_cases hp : perms.any
        (fun p => (u.permissions.getD []).lookup p = some true) = true <;>
      simp only [requirePermission, h] <;>
      simp_all [List.any_eq_true]
  · intro db uid p perms hres htype
    rw [getUserProfile] at hres
    rcases hteam : findTeamMember db uid with _ | t
    · rw [hteam] at hres
      rcases hmem : findMember db uid with _ | m
      · rw [hmem] at hres
        exact absurd hres (by simp)
      · rw [hmem] at hres
        have hp : p = memberProfile uid m := by
          cases hres
          rfl
        subst hp
        simp [requirePermission, memberProfile]
    · rw [hteam] at hres
      have hp : p = teamMemberProfile uid t := by
        cases hres
        rfl
      subst hp
      exact absurd htype (by simp [teamMemberProfile])

/-- Witness for C2: a staff identity holding "members.view" passes a
request for that capability, never with an empty map; a resolved
member identity is denied every capability. -/
theorem requirePermission_policy_witness :
    (requirePermission ["members.view"] (some staffProfile1) = .next ↔
      ∃ p ∈ ["members.view"],
        (staffProfile1.permissions.getD []).lookup p = some true) ∧
    requirePermission ["members.view"] (some memberProfile2) =
      .authzError "Insufficient permissions" ∧
    requirePermission ["members.view"]
      (some { staffProfile1 with role := "admin" }) = .next := by
  refine ⟨?_, ?_, ?_⟩
  · exact requirePermission_policy.2.1 ["members.view"] staffProfile1 rfl
  · exact requirePermission_policy.2.2 deactivatedWithMemberDb "u2"
      memberProfile2 ["members.view"] rfl rfl
  · exact requirePermission_policy.1 ["members.view"] _ rfl

/-- Claim C3: the active-membership guard passes every staff and admin
identity unchanged; a member identity passes iff `membershipStatus`
is "active" and the end date, when present, is not strictly before
`now`; a member failing that is denied even when a preceding role
check passes. -/
theorem requireActiveMembership_policy :
    (∀ (now : Int) (u : Profile), u.role ≠ "member" →
      requireActiveMembership now (some u) = .next) ∧
    (∀ (now : Int) (u : Profile), u.role = "member" →
      (requireActiveMembership now (some u) = .next ↔
        (u.membershipStatus = some "active" ∧
          ∀ d, u.membershipEndDate = some d → now ≤ d))) ∧
    (∀ (now : Int) (u : Profile) (roles : List String), u.role = "member" →
      (u.membershipStatus ≠ some "active" ∨
        ∃ d, u.membershipEndDate = some d ∧ d < now) →
      chain (restrictTo roles) (requireActiveMembership now) (some u) ≠
        .next) := by
  refine ⟨?_, ?_, ?_⟩
  · intro now u h
    simp [requireActiveMembership, h]
  · intro now u h
    by_cases hs : u.membershipStatus = some "active"
    · rcases hd : u.membershipEndDate with _ | d
      · simp [requireActiveMembership, h, hs, hd]
      · by_cases hlt : d < now
        · simp [requireActiveMembership, h, hs, hd, hlt]
        · simp [requireActiveMembership, h, hs, hd, hlt]
          omega
    · simp [requireActiveMembership, h, hs]
  · intro now u roles h hbad
    have hdeny : requireActiveMembership now (some u) ≠ .next := by
      rcases hbad with hs | ⟨d, hd, hlt⟩
      · simp [requireActiveMembership, h, hs]
      · by_cases hs : u.membershipStatus = some "active" <;>
          simp [requireActiveMembership, h, hs, hd, hlt, not_le.mpr hlt]
    rw [chain]
    rcases hr : restrictTo roles (some u) with _ | msg | msg <;> simp_all

/-- Witness for C3: an admin passes; a member whose membership expired
at time 100 is denied at time 200 even though the role check for
"member" passes. -/
theorem requireActiveMembership_policy_witness :
    requireActiveMembership 200 (some staffProfile1) = .next ∧
    (requireActiveMembership 200 (some { memberProfile2 with
        membershipStatus := some "active" }) = .next ↔
      ({ memberProfile2 with
          membershipStatus := some "active" } : Profile).membershipStatus =
            some "active" ∧
        ∀ d, ({ memberProfile2 with
            membershipStatus := some "active" } : Profile).membershipEndDate =
              some d → (200 : Int) ≤ d) ∧
    chain (restrictTo ["member"]) (requireActiveMembership 200)
      (some memberProfile2) ≠ .next := by
  refine ⟨?_, ?_, ?_⟩
  · exact requireActiveMembership_policy.1 200 staffProfile1 (by decide)
  · exact requireActiveMembership_policy.2.1 200 _ rfl
  · exact requireActiveMembership_policy.2.2 200 memberProfile2 ["member"]
      rfl (Or.inl (by decide))

/-- Claim C4 counterexample: for subject id "u1" in `bothDb` both
profile lookups succeed, yet identity resolution succeeds (returning
the staff profile) instead of failing. -/
theorem getUserProfile_both_lookups_counterexample :
    (findTeamMember bothDb "u1").isSome = true ∧
    (findMember bothDb "u1").isSome = true ∧
    getUserProfile bothDb "u1" = .ok (teamMemberProfile "u1" staffRow1) :=
  ⟨rfl, rfl, rfl⟩

/-- Claim C4 (amended): identity resolution consults the staff-type
lookup first and, when it succeeds, returns the staff profile without
regard to the member-type lookup; when only the member-type lookup
succeeds it returns the member profile; it fails with "User profile
not found" exactly when both lookups fail. -/
theorem getUserProfile_staff_precedence :
    (∀ (db : Db) (uid : String) (t : TeamRow),
      findTeamMember db uid = some t →
      getUserProfile db uid = .ok (teamMemberProfile uid t)) ∧
    (∀ (db : Db) (uid : String) (m : MemberRow),
      findTeamMember db uid = none → findMember db uid = some m →
      getUserProfile db uid = .ok (memberProfile uid m)) ∧
    (∀ (db : Db) (uid : String),
      findTeamMember db uid = none → findMember db uid = none →
      getUserProfile db uid = .error "User profile not found") := by
  refine ⟨?_, ?_, ?_⟩
  · intro db uid t h
    simp [getUserProfile, h]
  · intro db uid m h1 h2
    simp [getUserProfile, h1, h2]
  · intro db uid h1 h2
    simp [getUserProfile, h1, h2]

/-- Witness for C4 (amended): the three branches at concrete stores. -/
theorem getUserProfile_staff_precedence_witness :
    getUserProfile bothDb "u1" = .ok (teamMemberProfile "u1" staffRow1) ∧
    getUserProfile deactivatedWithMemberDb "u2" =
      .ok (memberProfile "u2" memberRow2) ∧
    getUserProfile deactivatedOnlyDb "u2" =
      .error "User profile not found" :=
  ⟨getUserProfile_staff_precedence.1 bothDb "u1" staffRow1 rfl,
    getUserProfile_staff_precedence.2.1 deactivatedWithMemberDb "u2"
      memberRow2 rfl rfl,
    getUserProfile_staff_precedence.2.2 deactivatedOnlyDb "u2" rfl rfl⟩

/-- Claim C5: token extraction takes the Bearer `Authorization` header
first (the other carriers are then ignored), else the `jwt` cookie,
else the `x-access-token` header; and a request carrying no usable
token makes `protect` fail with the no-token `AuthenticationError`
with an empty effect trace, i.e. before any verifier call or profile
lookup. -/
theorem extractToken_priority_no_token_401 :
    (∀ (a : String) (c x : Option String), jsStartsWith a "Bearer " = true →
      extractToken ⟨some a, c, x⟩ = some ((jsSplit ' ' a.data).getD 1 "")) ∧
    (∀ (auth : Option String) (c : String) (x : Option String),
      (∀ s, auth = some s → jsStartsWith s "Bearer " = false) → c ≠ "" →
      extractToken ⟨auth, some c, x⟩ = some c) ∧
    (∀ (auth : Option String) (x : String),
      (∀ s, auth = some s → jsStartsWith s "Bearer " = false) → x ≠ "" →
      extractToken ⟨auth, none, some x⟩ = some x) ∧
    (extractToken ⟨none, none, none⟩ = none) ∧
    (∀ (req : Request) (verify : String → Option String) (db : Db),
      jsTruthy (extractToken req) = false →
      protect req verify db =
        (.error "Access denied. No token provided.", [])) := by
  refine ⟨?_, ?_, ?_, rfl, ?_⟩
  · intro a c x h
    simp [extractToken, h]
  · intro auth c x hauth hc
    cases auth with
    | none => simp [extractToken, jsTruthy, hc]
    | some s => simp [extractToken, hauth s rfl, jsTruthy, hc]
  · intro auth x hauth hx
    cases auth with
    | none => simp [extractToken, jsTruthy, hx]
    | some s => simp [extractToken, hauth s rfl, jsTruthy, hx]
  · intro req verify db h
    simp [protect, h]

/-- Witness for C5: the header wins over cookie and custom header; a
non-Bearer header falls back to the cookie; the custom header is last;
a bare request is rejected with no effect performed. -/
theorem extractToken_priority_no_token_401_witness :
    extractToken ⟨some "Bearer tok123", some "cookieTok", some "headerTok"⟩ =
      some "tok123" ∧
    extractToken ⟨some "Basic abc", some "cookieTok", some "headerTok"⟩ =
      some "cookieTok" ∧
    extractToken ⟨none, none, some "headerTok"⟩ = some "headerTok" ∧
    protect ⟨none, none, none⟩ (fun _ => some "u1") bothDb =
      (.error "Access denied. No token provided.", []) := by
  refine ⟨?_, ?_, ?_, ?_⟩
  · have h := extractToken_priority_no_token_401.1 "Bearer tok123"
      (some "cookieTok") (some "headerTok") (by decide)
    rw [h]
    rfl
  · exact extractToken_priority_no_token_401.2.1 (some "Basic abc")
      "cookieTok" (some "headerTok") (fun s hs => by cases hs; decide)
      (by decide)
  · exact extractToken_priority_no_token_401.2.2.1 none "headerTok"
      (fun s hs => Option.noConfusion hs) (by decide)
  · exact extractToken_priority_no_token_401.2.2.2.2 ⟨none, none, none⟩
      (fun _ => some "u1") bothDb rfl

/-- Helper: a retried request (one whose `_retry` flag is set) either
resolves with its status or rejects; it never refreshes and never
touches the stored tokens. -/
theorem runCall_retried (fuel : Nat) (srv : Bool → Nat)
    (r : Except Unit String) (st : ClientState) :
    runCall srv r (fuel + 1) st true =
      ⟨if srv true < 400 then .ok (srv true) else .error (), 0, st, false⟩ := by
  rw [runCall]
  by_cases h : srv true < 400 <;> simp [h]

/-- Claim C6: the response interceptor performs at most one refresh
attempt per client call; when the refresh succeeds it stores the new
access token and retries the original call exactly once (a retried
call that itself returns 401 rejects without a second refresh); when
the refresh fails it removes both token cookies and navigates to the
login page. -/
theorem refresh_at_most_once :
    (∀ (fuel : Nat) (srv : Bool → Nat) (r : Except Unit String)
        (st : ClientState) (b : Bool),
      (runCall srv r fuel st b).refreshCalls ≤ 1) ∧
    (∀ (fuel : Nat) (srv : Bool → Nat) (newTok rt : String)
        (at0 : Option String), srv false = 401 → rt ≠ "" →
      runCall srv (.ok newTok) (fuel + 2) ⟨at0, some rt⟩ false =
        ⟨if srv true < 400 then .ok (srv true) else .error (), 1,
          ⟨some newTok, some rt⟩, false⟩) ∧
    (∀ (fuel : Nat) (srv : Bool → Nat) (rt : String) (at0 : Option String),
      srv false = 401 → rt ≠ "" →
      runCall srv (.error ()) (fuel + 1) ⟨at0, some rt⟩ false =
        ⟨.error (), 1, ⟨none, none⟩, true⟩) := by
  refine ⟨?_, ?_, ?_⟩
  · intro fuel srv r st b
    cases fuel with
    | zero => exact Nat.zero_le 1
    | succ n =>
      rw [runCall]
      split
      · exact Nat.zero_le 1
      · split
        · rw [handle401.eq_def]
          split
          · split
            · simp [runCall_retryFlag_no_refresh]
            · exact le_refl 1
          · exact Nat.zero_le 1
        · exact Nat.zero_le 1
  · intro fuel srv newTok rt at0 h hrt
    rw [runCall]
    simp [h, hrt, jsTruthy, handle401.eq_def, runCall_retried]
  · intro fuel srv rt at0 h hrt
    rw [runCall]
    simp [h, hrt, jsTruthy, handle401.eq_def]

/-- Witness for C6: a call that 401s, refreshes successfully and
succeeds on retry makes exactly one refresh; one whose refresh fails
ends logged out with both cookies cleared. -/
theorem refresh_at_most_once_witness :
    runCall (fun b => if b then 200 else 401) (.ok "newTok") 2
      ⟨some "oldTok", some "refreshTok"⟩ false =
      ⟨.ok 200, 1, ⟨some "newTok", some "refreshTok"⟩, false⟩ ∧
    runCall (fun _ => 401) (.error ()) 1
      ⟨some "oldTok", some "refreshTok"⟩ false =
      ⟨.error (), 1, ⟨none, none⟩, true⟩ := by
  constructor
  · have h := refresh_at_most_once.2.1 0 (fun b => if b then 200 else 401)
      "newTok" "refreshTok" (some "oldTok") rfl (by decide)
    simpa using h
  · exact refresh_at_most_once.2.2 0 (fun _ => 401) "refreshTok"
      (some "oldTok") rfl (by decide)

/-- Claim C7 evaluated on the code: two calls whose 401 responses race
(each interceptor reads the pre-refresh cookie state, and no shared
single-flight handle exists) trigger two upstream refresh calls, not
one. -/
theorem concurrent_401_two_refreshes :
    concurrentRefreshCalls (fun rt => if rt then 200 else 401)
      (fun rt => if rt then 200 else 401) (.ok "newTok")
      ⟨some "oldTok", some "refreshTok"⟩ = 2 := rfl

/-- Claim C8: the server logout handler responds with the success body
whatever the upstream sign-out does, and the client logout clears both
token cookies whether or not the logout API call fails. -/
theorem logout_never_appears_to_fail :
    (∀ (r : Except String (Option String)),
      serverLogout r = { status := "success", message := "Logout successful" }) ∧
    (∀ (r : Except Unit Unit) (st : ClientState),
      (clientLogout r st).accessToken = none ∧
        (clientLogout r st).refreshToken = none) := by
  refine ⟨?_, ?_⟩
  · intro r
    cases r <;> rfl
  · intro r st
    cases r <;> exact ⟨rfl, rfl⟩

/-- Claim C9 counterexample: a request to a general API path resolving
to an admin identity is charged exactly as an anonymous one — only the
IP-keyed general limiter with budget 100, not a role-keyed budget of
1000 — and the live login and registration endpoints (under the auth
router at /api/v1/auth) are also charged only the general limiter:
the strict limiter, mounted at /api/auth/login and
/api/auth/register, never matches them. -/
theorem rate_budget_counterexample :
    chargedLimiters "/api/v1/members" (some adminProfile1) = [limiter] ∧
    chargedLimiters "/api/v1/members" none = [limiter] ∧
    limiter.keyedByIp = true ∧
    limiter.max = 100 ∧
    defaultLimits.lookup "admin" = some 1000 ∧
    loginPath = "/api/v1/auth/login" ∧
    chargedLimiters loginPath (some adminProfile1) = [limiter] ∧
    chargedLimiters registerPath none = [limiter] :=
  ⟨rfl, rfl, rfl, rfl, rfl, rfl, rfl, rfl⟩

/-- Claim C9 (amended): rate limiting never depends on the resolved
identity — the charged limiters are a function of the request path
alone, and every request under /api/ is charged the single IP-keyed
general limiter (100 per fixed 15-minute window); the role-keyed
budget selection (defaults strictly ordered admin > staff > member >
anonymous, 15-minute windows) exists but is mounted on no route; the
strictly smaller IP-keyed auth limiter (10 per 15 minutes) is mounted
only at /api/auth/login and /api/auth/register, paths the versioned
auth router (mounted at /api/v1/auth) never serves, so the live login
and registration endpoints are charged only the general limiter. -/
theorem rate_budget_policy :
    (∀ (path : String) (u : Option Profile),
      chargedLimiters path u = limitersFor path) ∧
    (∀ (path : String) (u : Option Profile),
      mountMatches "/api" path = true →
      limiter ∈ chargedLimiters path u) ∧
    (limiter.keyedByIp = true ∧ limiter.max = 100 ∧
      limiter.windowMs = 15 * 60 * 1000) ∧
    (∀ (u : Profile), roleBasedRateLimit [] (some u) =
      (defaultLimits.lookup u.role, 15 * 60 * 1000)) ∧
    (roleBasedRateLimit [] none = (some 50, 15 * 60 * 1000)) ∧
    (defaultLimits.lookup "admin" = some 1000 ∧
      defaultLimits.lookup "staff" = some 500 ∧
      defaultLimits.lookup "member" = some 100 ∧
      defaultLimits.lookup "anonymous" = some 50) ∧
    ((defaultLimits.lookup "admin").getD 0 >
        (defaultLimits.lookup "staff").getD 0 ∧
      (defaultLimits.lookup "staff").getD 0 >
        (defaultLimits.lookup "member").getD 0 ∧
      (defaultLimits.lookup "member").getD 0 >
        (defaultLimits.lookup "anonymous").getD 0) ∧
    (strictLimiter.windowMs = 15 * 60 * 1000 ∧
      strictLimiter.keyedByIp = true ∧
      strictLimiter.max < limiter.max ∧
      strictLimiter.max < (defaultLimits.lookup "anonymous").getD 0) ∧
    (∀ (path : String) (u : Option Profile),
      strictLimiter ∈ chargedLimiters path u →
      (mountMatches "/api/auth/login" path = true ∨
        mountMatches "/api/auth/register" path = true)) ∧
    (mountMatches authMountPath "/api/auth/login" = false ∧
      mountMatches authMountPath "/api/auth/register" = false ∧
      (∀ (u : Option Profile), chargedLimiters loginPath u = [limiter] ∧
        chargedLimiters registerPath u = [limiter])) := by
  refine ⟨fun path u => rfl, ?_, by decide, ?_, by decide, by decide,
    by decide, by decide, ?_, by decide, by decide, fun u => ⟨rfl, rfl⟩⟩
  · intro path u h
    simp [chargedLimiters, limitersFor, h]
  · intro u
    simp [roleBasedRateLimit]
  · intro path u hmem
    by_cases hb : mountMatches "/api/auth/login" path = true
    · exact Or.inl hb
    · by_cases hc : mountMatches "/api/auth/register" path = true
      · exact Or.inr hc
      · exfalso
        cases ha : mountMatches "/api" path <;>
          simp [chargedLimiters, limitersFor, ha, hb, hc, limiter,
            strictLimiter] at hmem

/-- Witness for C9 (amended): the general limiter charges an admin's
request to a members route; the strict limiter's only matches are its
dead mount paths (instantiated at /api/auth/login, which it does
charge). -/
theorem rate_budget_policy_witness :
    limiter ∈ chargedLimiters "/api/v1/members" (some adminProfile1) ∧
    (mountMatches "/api/auth/login" "/api/auth/login" = true ∨
      mountMatches "/api/auth/register" "/api/auth/login" = true) := by
  constructor
  · exact rate_budget_policy.2.1 "/api/v1/members" (some adminProfile1)
      (by decide)
  · exact rate_budget_policy.2.2.2.2.2.2.2.2.1 "/api/auth/login" none
      (by decide)

/-- Claim C10: every staff-type profile produced by identity
resolution has `isActive = true` (the staff lookup filters on
`is_active = true`), so the deactivation branch of `protect` can only
fire for a member-type profile; a deactivated staff account with no
member row fails resolution with "User profile not found", and one
with a member row resolves as a member identity. -/
theorem staff_profile_always_active :
    (∀ (db : Db) (uid : String) (p : Profile),
      getUserProfile db uid = .ok p → p.type = "team_member" →
      p.isActive = true) ∧
    (∀ (req : Request) (verify : String → Option String) (db : Db),
      (protect req verify db).1 =
        .error "Your account has been deactivated. Please contact support." →
      ∃ uid m, findMember db uid = some m ∧
        getUserProfile db uid = .ok (memberProfile uid m) ∧
        (memberProfile uid m).isActive = false) ∧
    (∀ (db : Db) (uid : String),
      (∀ r ∈ db.teamMembers, r.user_id = uid → r.is_active = false) →
      findMember db uid = none →
      getUserProfile db uid = .error "User profile not found") ∧
    (∀ (db : Db) (uid : String) (m : MemberRow),
      (∀ r ∈ db.teamMembers, r.user_id = uid → r.is_active = false) →
      findMember db uid = some m →
      getUserProfile db uid = .ok (memberProfile uid m)) := by
  refine ⟨?_, ?_, ?_, ?_⟩
  · intro db uid p hres htype
    rw [getUserProfile] at hres
    rcases hteam : findTeamMember db uid with _ | t
    · rw [hteam] at hres
      rcases hmem : findMember db uid with _ | m
      · rw [hmem] at hres
        exact absurd hres (by simp)
      · rw [hmem] at hres
        have hp : p = memberProfile uid m := by
          cases hres
          rfl
        subst hp
        exact absurd htype (by simp [memberProfile])
    · rw [hteam] at hres
      have hp : p = teamMemberProfile uid t := by
        cases hres
        rfl
      subst hp
      simpa [teamMemberProfile] using findTeamMember_is_active hteam
  · intro req verify db h
    cases htok : jsTruthy (extractToken req) with
    | false => simp [protect, htok] at h
    | true =>
      cases hv : verify ((extractToken req).getD "") with
      | none => simp [protect, htok, hv] at h
      | some uid =>
        rcases hteam : findTeamMember db uid with _ | t
        · rcases hmem : findMember db uid with _ | m
          · simp [protect, getUserProfile, htok, hv, hteam, hmem] at h
          · by_cases hact : (memberProfile uid m).isActive = true
            · simp [protect, getUserProfile, htok, hv, hteam, hmem, hact] at h
            · exact ⟨uid, m, hmem, by simp [getUserProfile, hteam, hmem],
                by simpa using hact⟩
        · simp [protect, getUserProfile, htok, hv, hteam,
            findTeamMember_is_active hteam, teamMemberProfile] at h
  · intro db uid h hm
    simp [getUserProfile, findTeamMember_none_of_inactive h, hm]
  · intro db uid m h hm
    simp [getUserProfile, findTeamMember_none_of_inactive h, hm]

/-- Witness for C10: the staff profile for "u1" is active; a request
resolving to the deactivated staff subject "u2" with a member row
yields the deactivation error only through the member profile; "u2"
without a member row fails resolution, and with one resolves as a
member. -/
theorem staff_profile_always_active_witness :
    (teamMemberProfile "u1" staffRow1).isActive = true ∧
    (∃ uid m, findMember deactivatedWithMemberDb uid = some m ∧
      getUserProfile deactivatedWithMemberDb uid = .ok (memberProfile uid m) ∧
      (memberProfile uid m).isActive = false) ∧
    getUserProfile deactivatedOnlyDb "u2" = .error "User profile not found" ∧
    getUserProfile deactivatedWithMemberDb "u2" =
      .ok (memberProfile "u2" memberRow2) := by
  refine ⟨?_, ?_, ?_, ?_⟩
  · exact staff_profile_always_active.1 bothDb "u1"
      (teamMemberProfile "u1" staffRow1) rfl rfl
  · exact staff_profile_always_active.2.1
      ⟨some "Bearer tok", none, none⟩ (fun _ => some "u2")
      deactivatedWithMemberDb rfl
  · exact staff_profile_always_active.2.2.1 deactivatedOnlyDb "u2"
      (by decide) rfl
  · exact staff_profile_always_active.2.2.2 deactivatedWithMemberDb "u2"
      memberRow2 (by decide) rfl

end Gym
